import Mathlib

/-!
Verification of the undo/observer engine of `pitivi/undo/timeline.py`.

The document model (layers, clips, track elements, control sources) and the
`UndoableAction` hierarchy are shallowly embedded.  Python dictionaries become
association lists with in-place update (`alSet`) and first-match deletion
(`alErase`); a `GstTimedValueControlSource` keyframe curve becomes an
association list kept sorted by timestamp (`kfSet` inserts in timestamp
order, mirroring the controller's ordered storage).  Python exceptions
(`KeyError`, failed `assert`, attribute access on `None`) become
`Except String`.  GObject/GES operations performed on a live object whose
identifier is absent from the document state cannot happen for live
documents; those branches are modelled as no-ops and the theorems carry
explicit presence hypotheses instead.
-/

namespace PitiviUndoTimeline

/-! ### Association lists (Python `dict`) -/

/-- Python `d[k] = v`: update the existing entry in place, else append. -/
def alSet {κ ν : Type} [DecidableEq κ] : List (κ × ν) → κ → ν → List (κ × ν)
  | [], k, v => [(k, v)]
  | (k2, v2) :: rest, k, v =>
      if k = k2 then (k, v) :: rest else (k2, v2) :: alSet rest k v

/-- Python `d.get(k)` / `d[k]`. -/
def alLookup {κ ν : Type} [DecidableEq κ] : List (κ × ν) → κ → Option ν
  | [], _ => none
  | (k2, v2) :: rest, k => if k = k2 then some v2 else alLookup rest k

/-- Python `del d[k]` / `d.pop(k)` (the key occurs at most once in a dict). -/
def alErase {κ ν : Type} [DecidableEq κ] : List (κ × ν) → κ → List (κ × ν)
  | [], _ => []
  | (k2, v2) :: rest, k => if k = k2 then rest else (k2, v2) :: alErase rest k

/-- `GstTimedValueControlSource.set`: overwrite the keyframe at an existing
timestamp, otherwise insert at the position given by timestamp order. -/
def kfSet : List (Nat × Int) → Nat → Int → List (Nat × Int)
  | [], ts, v => [(ts, v)]
  | (t, w) :: rest, ts, v =>
      if ts = t then (ts, v) :: rest
      else if ts < t then (ts, v) :: (t, w) :: rest
      else (t, w) :: kfSet rest ts v

/-- A keyframe curve is strictly sorted by timestamp (spec 3: "monotonic by
timestamp, at most one value per timestamp"). -/
def kfSorted (l : List (Nat × Int)) : Prop :=
  l.Pairwise (fun a b => a.1 < b.1)

/-! ### Document data model

Live GES objects are identified by natural numbers; the `DocState` maps hold
their observable state.  Boolean fields stand for the `isinstance` kind
checks of the source (`GES.TransitionClip`, `GES.VideoTransition`,
`GES.BaseEffect`, `GES.VideoSource`). -/

/-- A `GstTimedValue` as delivered by keyframe signals. -/
structure Keyframe where
  timestamp : Nat
  value : Int
  deriving DecidableEq

/-- A `GParamSpec` of a child property: `owner_type.name` and `name`. -/
structure PSpec where
  owner_type_name : String
  name : String
  deriving DecidableEq

/-- `child_property_name(pspec)` from the source. -/
def child_property_name (p : PSpec) : String :=
  p.owner_type_name ++ "::" ++ p.name

/-- A control binding: the bound property's name and its control source. -/
structure Binding where
  name : String
  control_source : Nat
  deriving DecidableEq

/-- A track element (source or effect) inside a clip. -/
structure ElemData where
  name : String
  isVideoTransition : Bool
  isBaseEffect : Bool
  isVideoSource : Bool
  props : List (PSpec × Int)
  gprops : List (String × Int)
  active : Bool
  bindings : List Binding
  deriving DecidableEq

/-- A clip on a layer. -/
structure ClipData where
  name : Option String
  isTransition : Bool
  start : Nat
  duration : Nat
  in_point : Nat
  asset_id : String
  type_name : String
  children : List Nat
  deriving DecidableEq

/-- The observable state of the single timeline document, together with the
number of `pipeline.commit_timeline()` calls performed so far and a fresh-id
counter for objects created by `add_asset`. -/
structure DocState where
  clips : List (Nat × ClipData)
  elems : List (Nat × ElemData)
  csKeyframes : List (Nat × List (Nat × Int))
  layerClips : List (Nat × List Nat)
  layerPriority : List (Nat × Nat)
  timelineLayers : List Nat
  nextId : Nat
  commits : Nat
  deriving DecidableEq

/-! Child-property dictionaries are keyed by pspec (the full name is derived),
because the observer's denylist check uses the short `pspec.name` while
lookups use the full `Owner::name`. -/

def setPSpecProp : List (PSpec × Int) → String → Int → List (PSpec × Int)
  | [], _, _ => []
  | (q, w) :: rest, p, v =>
      if child_property_name q = p then (q, v) :: rest
      else (q, w) :: setPSpecProp rest p v

def getPSpecProp : List (PSpec × Int) → String → Option Int
  | [], _ => none
  | (q, w) :: rest, p =>
      if child_property_name q = p then some w else getPSpecProp rest p

/-! ### Primitive document operations (the consumed GES interface) -/

/-- `pipeline.commit_timeline()`. -/
def commit_timeline (s : DocState) : DocState :=
  { s with commits := s.commits + 1 }

/-- `track_element.set_child_property(prop_name, value)`. -/
def set_child_property (s : DocState) (e : Nat) (p : String) (v : Int) : DocState :=
  match alLookup s.elems e with
  | some ed => { s with elems := alSet s.elems e { ed with props := setPSpecProp ed.props p v } }
  | none => s

/-- `track_element.get_child_property(prop_name)`; `none` means `res` false. -/
def get_child_property (s : DocState) (e : Nat) (p : String) : Option Int :=
  (alLookup s.elems e).bind (fun ed => getPSpecProp ed.props p)

/-- `track_element.get_control_binding(prop_name)`. -/
def get_control_binding (s : DocState) (e : Nat) (p : String) : Option Binding :=
  (alLookup s.elems e).bind (fun ed => ed.bindings.find? (fun b => b.name == p))

/-- `control_source.set(timestamp, value)`. -/
def cs_set (s : DocState) (cs ts : Nat) (v : Int) : DocState :=
  match alLookup s.csKeyframes cs with
  | some curve => { s with csKeyframes := alSet s.csKeyframes cs (kfSet curve ts v) }
  | none => s

/-- `control_source.unset(timestamp)`. -/
def cs_unset (s : DocState) (cs ts : Nat) : DocState :=
  match alLookup s.csKeyframes cs with
  | some curve => { s with csKeyframes := alSet s.csKeyframes cs (alErase curve ts) }
  | none => s

/-- `ges_layer.props.priority = p`. -/
def set_layer_priority (s : DocState) (l p : Nat) : DocState :=
  match alLookup s.layerPriority l with
  | some _ => { s with layerPriority := alSet s.layerPriority l p }
  | none => s

/-- `track_element.active = v`. -/
def set_active (s : DocState) (e : Nat) (v : Bool) : DocState :=
  match alLookup s.elems e with
  | some ed => { s with elems := alSet s.elems e { ed with active := v } }
  | none => s

/-- `track_element.set_property(name, value)` (direct GObject property, used
for the transition props border/invert/transition-type). -/
def set_gobject_property (s : DocState) (e : Nat) (p : String) (v : Int) : DocState :=
  match alLookup s.elems e with
  | some ed => { s with elems := alSet s.elems e { ed with gprops := alSet ed.gprops p v } }
  | none => s

/-- `clip.set_name(n)`. -/
def set_clip_name (s : DocState) (c : Nat) (n : Option String) : DocState :=
  match alLookup s.clips c with
  | some cd => { s with clips := alSet s.clips c { cd with name := n } }
  | none => s

/-- `layer.add_clip(clip)`. -/
def add_clip (s : DocState) (l c : Nat) : DocState :=
  match alLookup s.layerClips l with
  | some cl => { s with layerClips := alSet s.layerClips l (cl ++ [c]) }
  | none => s

/-- `layer.remove_clip(clip)`. -/
def remove_clip (s : DocState) (l c : Nat) : DocState :=
  match alLookup s.layerClips l with
  | some cl => { s with layerClips := alSet s.layerClips l (cl.erase c) }
  | none => s

/-- `timeline.add_layer(layer)`. -/
def add_layer (s : DocState) (l : Nat) : DocState :=
  { s with timelineLayers := s.timelineLayers ++ [l] }

/-- `timeline.remove_layer(layer)`. -/
def remove_layer (s : DocState) (l : Nat) : DocState :=
  { s with timelineLayers := s.timelineLayers.erase l }

/-- `ges_layer.get_clips()`. -/
def get_clips (s : DocState) (l : Nat) : List Nat :=
  (alLookup s.layerClips l).getD []

/-- `clip.remove(track_element)`. -/
def clip_remove_child (s : DocState) (c te : Nat) : DocState :=
  match alLookup s.clips c with
  | some cd => { s with clips := alSet s.clips c { cd with children := cd.children.erase te } }
  | none => s

/-- `clip.add_asset(asset)`: creates a (fresh) effect track element inside
the clip and returns it. -/
def clip_add_asset (s : DocState) (c : Nat) (_asset : Nat) : DocState × Nat :=
  let e := s.nextId
  let ed : ElemData :=
    { name := "", isVideoTransition := false, isBaseEffect := true,
      isVideoSource := false, props := [], gprops := [], active := true, bindings := [] }
  let s1 := { s with nextId := s.nextId + 1, elems := alSet s.elems e ed }
  match alLookup s1.clips c with
  | some cd => ({ s1 with clips := alSet s1.clips c { cd with children := cd.children ++ [e] } }, e)
  | none => (s1, e)

/-! ### The UndoableAction hierarchy -/

/-- `TRANSITION_PROPS` from the source. -/
def TRANSITION_PROPS : List String :=
  ["border", "invert", "transition-type"]

/-- Fields of `TransitionClipAddedAction` (the speculative target
`track_element` is rebound at do-time by `update_object`). -/
structure TransitionClipAddedData where
  ges_layer : Nat
  start : Nat
  duration : Nat
  track_element : Nat
  deriving DecidableEq

/-- Fields of `TransitionClipRemovedAction`; `properties` holds the captured
`TRANSITION_PROPS` values. -/
structure TransitionClipRemovedData where
  ges_layer : Nat
  start : Nat
  duration : Nat
  track_element : Nat
  properties : List (String × Int)
  deriving DecidableEq

/-- Fields of `TrackElementAction` (base of `EffectAddedAction` and
`EffectRemovedAction`); `track_element` is `None` after `remove()`. -/
structure TrackElementActionData where
  clip : Nat
  track_element : Option Nat
  asset : Nat
  track_element_props : List (String × Int)
  deriving DecidableEq

/-- One constructor per `UndoableAction` class of the source module.  For
`ActivePropertyChanged` the `active` field is the stored internal flag, i.e.
already the complement of the observed value (see `__init__`). -/
inductive Action where
  | trackElementPropertyChanged (track_element : Nat) (property_name : String)
      (old_value new_value : Int)
  | effectAdded (a : TrackElementActionData)
  | effectRemoved (a : TrackElementActionData)
  | clipAdded (layer clip : Nat)
  | clipRemoved (layer clip : Nat)
      (transition_removed_actions : List TransitionClipRemovedData)
  | transitionClipAdded (a : TransitionClipAddedData)
  | transitionClipRemoved (a : TransitionClipRemovedData)
  | layerAdded (layer : Nat)
  | layerRemoved (layer : Nat)
  | layerMoved (layer : Nat) (old_priority priority : Nat)
  | keyframeAdded (control_source : Nat) (keyframe : Keyframe)
      (action_info : List (String × String))
  | keyframeRemoved (control_source : Nat) (keyframe : Keyframe)
      (action_info : List (String × String))
  | keyframeChanged (control_source : Nat) (old_snapshot new_snapshot : Nat × Int)
  | activePropertyChanged (effect_action : TrackElementActionData) (active : Bool)
  deriving DecidableEq

/-- `ActivePropertyChanged.__init__(effect_action, active)` stores
`not active`. -/
def active_property_changed_init (effect_action : TrackElementActionData)
    (active : Bool) : Action :=
  .activePropertyChanged effect_action (!active)

/-- `TransitionClipAction.get_video_element(ges_clip)`: the first child that
is a `GES.VideoTransition`. -/
def get_video_element (s : DocState) (c : Nat) : Option Nat :=
  match alLookup s.clips c with
  | some cd =>
      cd.children.find? (fun te =>
        ((alLookup s.elems te).map (fun ed => ed.isVideoTransition)).getD false)
  | none => none

/-- Loop body of `TransitionClipAction.find_video_transition`: scan the
layer's clips for a transition clip with equal start/duration, skipping
(`continue`) matches that contain no video element. -/
def find_video_transition_go (s : DocState) (st d : Nat) : List Nat → Option Nat
  | [] => none
  | c :: rest =>
      match alLookup s.clips c with
      | some cd =>
          if cd.isTransition ∧ cd.start = st ∧ cd.duration = d then
            match get_video_element s c with
            | some te => some te
            | none => find_video_transition_go s st d rest
          else find_video_transition_go s st d rest
      | none => find_video_transition_go s st d rest

/-- `TransitionClipAction.find_video_transition`. -/
def find_video_transition (s : DocState) (l st d : Nat) : Option Nat :=
  find_video_transition_go s st d (get_clips s l)

/-- `TransitionClipRemovedAction.undo`: search the automatically re-created
transition clip, rebind the speculative target (`update_object`) and restore
the captured transition properties. -/
def transition_clip_removed_undo (s : DocState) (a : TransitionClipRemovedData) :
    DocState × TransitionClipRemovedData :=
  match find_video_transition s a.ges_layer a.start a.duration with
  | some te =>
      (a.properties.foldl (fun st pv => set_gobject_property st te pv.1 pv.2) s,
       { a with track_element := te })
  | none => (s, a)

/-- `TrackElementAction.add`: re-create the effect from its asset and restore
every captured child property. -/
def track_element_action_add (s : DocState) (a : TrackElementActionData) :
    DocState × TrackElementActionData :=
  let p := clip_add_asset s a.clip a.asset
  let s2 := a.track_element_props.foldl
    (fun st pv => set_child_property st p.2 pv.1 pv.2) p.1
  (s2, { a with track_element := some p.2 })

/-- `TrackElementAction.remove`: `self.clip.remove(self.track_element)`;
with `track_element` already `None` this raises. -/
def track_element_action_remove (s : DocState) (a : TrackElementActionData) :
    Except String (DocState × TrackElementActionData) :=
  match a.track_element with
  | some te => .ok (clip_remove_child s a.clip te, { a with track_element := none })
  | none => .error "clip.remove(None)"

/-- The `do()` method of each action, as a transformer of the document state;
the updated action value is returned because some `do`/`undo` methods mutate
their own fields (`ActivePropertyChanged.active`, `update_object`,
`TrackElementAction.track_element`). -/
def stepDo (a : Action) (s : DocState) : Except String (DocState × Action) :=
  match a with
  | .trackElementPropertyChanged te p old nw =>
      .ok (set_child_property s te p nw, .trackElementPropertyChanged te p old nw)
  | .effectAdded d =>
      let q := track_element_action_add s d
      .ok (q.1, .effectAdded q.2)
  | .effectRemoved d =>
      (track_element_action_remove s d).map (fun q => (q.1, .effectRemoved q.2))
  | .clipAdded l c =>
      .ok (commit_timeline (add_clip (set_clip_name s c none) l c), .clipAdded l c)
  | .clipRemoved l c tras =>
      .ok (commit_timeline (remove_clip s l c), .clipRemoved l c tras)
  | .transitionClipAdded d =>
      match find_video_transition s d.ges_layer d.start d.duration with
      | some te => .ok (s, .transitionClipAdded { d with track_element := te })
      | none => .error "assert track_element"
  | .transitionClipRemoved d => .ok (s, .transitionClipRemoved d)
  | .layerAdded l => .ok (add_layer s l, .layerAdded l)
  | .layerRemoved l => .ok (commit_timeline (remove_layer s l), .layerRemoved l)
  | .layerMoved l oldp p => .ok (set_layer_priority s l p, .layerMoved l oldp p)
  | .keyframeAdded cs kf info =>
      .ok (cs_set s cs kf.timestamp kf.value, .keyframeAdded cs kf info)
  | .keyframeRemoved cs kf info =>
      .ok (cs_unset s cs kf.timestamp, .keyframeRemoved cs kf info)
  | .keyframeChanged cs olds news =>
      .ok (cs_set s cs news.1 news.2, .keyframeChanged cs olds news)
  | .activePropertyChanged ea act =>
      match ea.track_element with
      | some te => .ok (set_active s te act, .activePropertyChanged ea (!act))
      | none => .error "AttributeError: track_element is None"

/-- The `undo()` method of each action (same conventions as `stepDo`). -/
def stepUndo (a : Action) (s : DocState) : Except String (DocState × Action) :=
  match a with
  | .trackElementPropertyChanged te p old nw =>
      .ok (set_child_property s te p old, .trackElementPropertyChanged te p old nw)
  | .effectAdded d =>
      (track_element_action_remove s d).map (fun q => (q.1, .effectAdded q.2))
  | .effectRemoved d =>
      let q := track_element_action_add s d
      .ok (q.1, .effectRemoved q.2)
  | .clipAdded l c => .ok (commit_timeline (remove_clip s l c), .clipAdded l c)
  | .clipRemoved l c tras =>
      let s1 := commit_timeline (add_clip (set_clip_name s c none) l c)
      let r := tras.foldl (fun p t =>
          let q := transition_clip_removed_undo p.1 t
          (q.1, p.2 ++ [q.2])) (s1, ([] : List TransitionClipRemovedData))
      .ok (r.1, .clipRemoved l c r.2)
  | .transitionClipAdded d => .ok (s, .transitionClipAdded d)
  | .transitionClipRemoved d =>
      let q := transition_clip_removed_undo s d
      .ok (q.1, .transitionClipRemoved q.2)
  | .layerAdded l => .ok (commit_timeline (remove_layer s l), .layerAdded l)
  | .layerRemoved l => .ok (add_layer s l, .layerRemoved l)
  | .layerMoved l oldp p => .ok (set_layer_priority s l oldp, .layerMoved l oldp p)
  | .keyframeAdded cs kf info =>
      .ok (cs_unset s cs kf.timestamp, .keyframeAdded cs kf info)
  | .keyframeRemoved cs kf info =>
      .ok (cs_set s cs kf.timestamp kf.value, .keyframeRemoved cs kf info)
  | .keyframeChanged cs olds news =>
      .ok (cs_set s cs olds.1 olds.2, .keyframeChanged cs olds news)
  | .activePropertyChanged ea act =>
      match ea.track_element with
      | some te => .ok (set_active s te act, .activePropertyChanged ea (!act))
      | none => .error "AttributeError: track_element is None"

/-- `ClipRemoved.expand(action)`: absorb the candidate whenever it is a
`TransitionClipRemovedAction`.  The receiver's `layer`/`clip` are passed to
mirror the bound method but, exactly as in the source, the body never reads
them. -/
def clip_removed_expand (_layer _clip : Nat)
    (transition_removed_actions : List TransitionClipRemovedData)
    (action : Action) : Bool × List TransitionClipRemovedData :=
  match action with
  | .transitionClipRemoved a => (true, transition_removed_actions ++ [a])
  | _ => (false, transition_removed_actions)

/-! ### Action log and live signal connections

`World.log` is the external `UndoableActionLog` (consumed interface: `push`
in causal order).  `World.connections` records the live GObject signal
subscriptions, so that releasing/dangling callbacks is observable. -/

/-- Identity of a GObject a callback can be connected to. -/
inductive GObj where
  | timeline
  | layer (id : Nat)
  | clip (id : Nat)
  | elem (id : Nat)
  | ctrlSource (id : Nat)
  deriving DecidableEq

structure World where
  log : List Action
  connections : List (GObj × String)
  deriving DecidableEq

/-- `self.action_log.push(action)`. -/
def pushAction (w : World) (a : Action) : World :=
  { w with log := w.log ++ [a] }

/-- `obj.connect(signal, callback)`. -/
def connectSig (w : World) (o : GObj) (s : String) : World :=
  { w with connections := w.connections ++ [(o, s)] }

/-- `obj.disconnect_by_func(callback)`. -/
def disconnectSig (w : World) (o : GObj) (s : String) : World :=
  { w with connections := w.connections.filter (fun c => !(decide (c = (o, s)))) }

/-! ### ControlSourceObserver -/

structure ControlSourceObserverS where
  control_source : Option Nat
  action_info : List (String × String)
  keyframes : List (Nat × (Nat × Int))
  deriving DecidableEq

/-- `ControlSourceObserver.__init__`: snapshot all `(timestamp, value)` pairs
keyed by timestamp and subscribe to the three keyframe signals. -/
def control_source_observer_init (doc : DocState) (w : World) (cs : Nat)
    (action_info : List (String × String)) : World × ControlSourceObserverS :=
  let curve := (alLookup doc.csKeyframes cs).getD []
  let kfs := curve.map (fun kv => (kv.1, (kv.1, kv.2)))
  let w1 := connectSig (connectSig (connectSig w (.ctrlSource cs) "value-added")
      (.ctrlSource cs) "value-changed") (.ctrlSource cs) "value-removed"
  (w1, { control_source := some cs, action_info := action_info, keyframes := kfs })

/-- `ControlSourceObserver.release`. -/
def control_source_observer_release (w : World) (o : ControlSourceObserverS) :
    Except String (World × ControlSourceObserverS) :=
  match o.control_source with
  | some cs =>
      .ok (disconnectSig (disconnectSig (disconnectSig w (.ctrlSource cs) "value-added")
          (.ctrlSource cs) "value-changed") (.ctrlSource cs) "value-removed",
        { o with control_source := none })
  | none => .error "AttributeError: control_source is None"

/-- `ControlSourceObserver._keyframe_added_cb`. -/
def keyframe_added_cb (w : World) (o : ControlSourceObserverS) (cs : Nat)
    (kf : Keyframe) : World × ControlSourceObserverS :=
  let o2 := { o with keyframes := alSet o.keyframes kf.timestamp (kf.timestamp, kf.value) }
  (pushAction w (.keyframeAdded cs kf o.action_info), o2)

/-- `ControlSourceObserver._keyframe_moved_cb`. -/
def keyframe_moved_cb (w : World) (o : ControlSourceObserverS) (cs : Nat)
    (kf : Keyframe) : Except String (World × ControlSourceObserverS) :=
  match alLookup o.keyframes kf.timestamp with
  | none => .error "KeyError"
  | some old_snapshot =>
      let new_snapshot := (kf.timestamp, kf.value)
      let o2 := { o with keyframes := alSet o.keyframes kf.timestamp new_snapshot }
      .ok (pushAction w (.keyframeChanged cs old_snapshot new_snapshot), o2)

/-- `ControlSourceObserver._keyframe_removed_cb`: `del` the snapshot entry
for the notified timestamp, then push a `KeyframeRemovedAction` built from
the signal's `keyframe` argument. -/
def keyframe_removed_cb (w : World) (o : ControlSourceObserverS) (cs : Nat)
    (kf : Keyframe) : Except String (World × ControlSourceObserverS) :=
  match alLookup o.keyframes kf.timestamp with
  | none => .error "KeyError"
  | some _ =>
      let o2 := { o with keyframes := alErase o.keyframes kf.timestamp }
      .ok (pushAction w (.keyframeRemoved cs kf o.action_info), o2)

/-! ### TimelineElementObserver

`PROPS_TO_IGNORE` is imported from `pitivi.effects`, which is outside src/;
spec 4.2 describes it as a fixed denylist of internal/bookkeeping property
names, so the denylist is passed as an arbitrary fixed list `ignore`. -/

structure TimelineElementObserverS where
  ges_timeline_element : Option Nat
  properties : List (String × Int)
  deriving DecidableEq

/-- `TimelineElementObserver.__init__`: snapshot every child property whose
short `pspec.name` is not denylisted, keyed by the full name, and subscribe
to `deep-notify`. -/
def timeline_element_observer_init (doc : DocState) (ignore : List String)
    (w : World) (e : Nat) : World × TimelineElementObserverS :=
  let eprops := ((alLookup doc.elems e).map (fun ed => ed.props)).getD []
  let snapshot := eprops.foldl (fun acc pv =>
      if pv.1.name ∈ ignore then acc
      else acc ++ [(child_property_name pv.1, pv.2)]) []
  (connectSig w (.elem e) "deep-notify",
   { ges_timeline_element := some e, properties := snapshot })

/-- `TimelineElementObserver.release`. -/
def timeline_element_observer_release (w : World) (o : TimelineElementObserverS) :
    Except String (World × TimelineElementObserverS) :=
  match o.ges_timeline_element with
  | some e => .ok (disconnectSig w (.elem e) "deep-notify",
      { o with ges_timeline_element := none })
  | none => .error "AttributeError: ges_timeline_element is None"

/-- `TimelineElementObserver._property_changed_cb`. -/
def property_changed_cb (doc : DocState) (ignore : List String) (w : World)
    (o : TimelineElementObserverS) (e : Nat) (pspec : PSpec) :
    Except String (World × TimelineElementObserverS) :=
  let prop_name := child_property_name pspec
  if pspec.name ∈ ignore then .ok (w, o)
  else
    match get_control_binding doc e prop_name with
    | some _ => .ok (w, o)
    | none =>
        match alLookup o.properties prop_name with
        | none => .error "KeyError"
        | some old_value =>
            match get_child_property doc e prop_name with
            | none => .error "assert res"
            | some new_value =>
                .ok (pushAction w
                      (.trackElementPropertyChanged e prop_name old_value new_value),
                     { o with properties := alSet o.properties prop_name new_value })

/-! ### LayerObserver and TimelineObserver -/

/-- Modelled from the spec: `GObjectObserver` (pitivi.undo.undo, outside
src/).  Per spec 4.2 a property observer snapshots the listed properties and
subscribes to change notifications at construction; it pushes no action. -/
def gobject_observer_init (w : World) (o : GObj) (props : List String) :
    World × List String :=
  (connectSig w o "notify", props)

/-- Modelled from the spec: releasing a `GObjectObserver` unsubscribes its
notification callback (spec 3/4.2). -/
def gobject_observer_release (w : World) (o : GObj) : World :=
  disconnectSig w o "notify"

/-- A value of `LayerObserver.track_element_observers`: either a
`GObjectObserver` (transitions, reduced property set) or a full
`TimelineElementObserver`. -/
inductive TrackElementObserverKind where
  | gobject (obj : GObj) (props : List String)
  | timelineElement (o : TimelineElementObserverS)
  deriving DecidableEq

def track_element_observer_release (w : World) (k : TrackElementObserverKind) :
    Except String (World × TrackElementObserverKind) :=
  match k with
  | .gobject obj props => .ok (gobject_observer_release w obj, .gobject obj props)
  | .timelineElement o =>
      (timeline_element_observer_release w o).map (fun q => (q.1, .timelineElement q.2))

structure LayerObserverS where
  ges_layer : Nat
  priority : Nat
  keyframe_observers : List (Nat × ControlSourceObserverS)
  track_element_observers : List (Nat × TrackElementObserverKind)
  clip_observers : List (Nat × List String)
  deriving DecidableEq

/-- `track_element.get_toplevel_parent()`: the clip containing the element. -/
def get_toplevel_parent (s : DocState) (te : Nat) : Option Nat :=
  (s.clips.find? (fun p => p.2.children.contains te)).map (fun p => p.1)

/-- `ges_clip.props.layer`. -/
def clip_layer (s : DocState) (c : Nat) : Option Nat :=
  (s.layerClips.find? (fun p => p.2.contains c)).map (fun p => p.1)

/-- `ges_timeline_element.get_name()`. -/
def element_name (s : DocState) (te : Nat) : String :=
  ((alLookup s.elems te).map (fun ed => ed.name)).getD ""

/-- `LayerObserver._connectToControlSource`. -/
def layer_observer_connect_to_control_source (doc : DocState)
    (lo : LayerObserverS) (w : World) (te : Nat) (b : Binding) :
    LayerObserverS × World :=
  let action_info := [("element-name", element_name doc te), ("property-name", b.name)]
  let q := control_source_observer_init doc w b.control_source action_info
  ({ lo with keyframe_observers := alSet lo.keyframe_observers b.control_source q.2 },
   q.1)

/-- `LayerObserver._connectToTrackElement`. -/
def layer_observer_connect_to_track_element (doc : DocState) (ignore : List String)
    (lo : LayerObserverS) (w : World) (te : Nat) : LayerObserverS × World :=
  match alLookup doc.elems te with
  | none => (lo, w)
  | some ed =>
      if ed.isVideoTransition then
        match get_toplevel_parent doc te with
        | none => (lo, w)
        | some c =>
            match clip_layer doc c, alLookup doc.clips c with
            | some lay, some cd =>
                let w1 := pushAction w (.transitionClipAdded
                    { ges_layer := lay, start := cd.start, duration := cd.duration,
                      track_element := te })
                let w2 := (gobject_observer_init w1 (.elem te) TRANSITION_PROPS).1
                let teo := alSet lo.track_element_observers te
                  (.gobject (.elem te) TRANSITION_PROPS)
                ({ lo with track_element_observers := teo }, w2)
            | _, _ => (lo, w)
      else
        let q := ed.bindings.foldl
          (fun p b => layer_observer_connect_to_control_source doc p.1 p.2 te b) (lo, w)
        let w1 := connectSig q.2 (.elem te) "control-binding-added"
        if ed.isBaseEffect || ed.isVideoSource then
          let r := timeline_element_observer_init doc ignore w1 te
          let teo := alSet q.1.track_element_observers te (.timelineElement r.2)
          ({ q.1 with track_element_observers := teo }, r.1)
        else (q.1, w1)

/-- `LayerObserver._connectToClip`. -/
def layer_observer_connect_to_clip (doc : DocState) (ignore : List String)
    (lo : LayerObserverS) (w : World) (c : Nat) : LayerObserverS × World :=
  let w1 := connectSig (connectSig w (.clip c) "child-added") (.clip c) "child-removed"
  let children := ((alLookup doc.clips c).map (fun cd => cd.children)).getD []
  let q := children.foldl
    (fun p te => layer_observer_connect_to_track_element doc ignore p.1 p.2 te) (lo, w1)
  let isTrans := ((alLookup doc.clips c).map (fun cd => cd.isTransition)).getD false
  if isTrans then q
  else
    let props := ["start", "duration", "in-point", "priority"]
    let r := gobject_observer_init q.2 (.clip c) props
    ({ q.1 with clip_observers := alSet q.1.clip_observers c props }, r.1)

/-- `LayerObserver._disconnectFromControlSource`: `pop` with no default, so
an absent observer raises `KeyError`. -/
def layer_observer_disconnect_from_control_source (lo : LayerObserverS)
    (w : World) (b : Binding) : Except String (LayerObserverS × World) :=
  match alLookup lo.keyframe_observers b.control_source with
  | none => .error "KeyError"
  | some o => do
      let q ← control_source_observer_release w o
      let kfo := alErase lo.keyframe_observers b.control_source
      .ok ({ lo with keyframe_observers := kfo }, q.1)

/-- `LayerObserver._disconnectFromTrackElement`: `pop(track_element, None)`,
so only a registered observer is released. -/
def layer_observer_disconnect_from_track_element (doc : DocState)
    (lo : LayerObserverS) (w : World) (te : Nat) :
    Except String (LayerObserverS × World) :=
  let bindings := ((alLookup doc.elems te).map (fun ed => ed.bindings)).getD []
  do
    let p ← bindings.foldlM
      (fun p b => layer_observer_disconnect_from_control_source p.1 p.2 b) (lo, w)
    match alLookup p.1.track_element_observers te with
    | none => .ok p
    | some k => do
        let q ← track_element_observer_release p.2 k
        let teo := alErase p.1.track_element_observers te
        .ok ({ p.1 with track_element_observers := teo }, q.1)

/-- `LayerObserver.__init__`.  `MetaContainerObserver.__init__` is outside
src/ (pitivi.undo.undo); modelled from the spec: spec 4.5 attributes no
action push to observer construction beyond what is modelled here. -/
def layer_observer_init (doc : DocState) (ignore : List String) (w : World)
    (l : Nat) : World × LayerObserverS :=
  let prio := (alLookup doc.layerPriority l).getD 0
  let lo0 : LayerObserverS :=
    { ges_layer := l, priority := prio, keyframe_observers := [],
      track_element_observers := [], clip_observers := [] }
  let w1 := connectSig (connectSig (connectSig w (.layer l) "clip-added")
      (.layer l) "clip-removed") (.layer l) "notify::priority"
  let q := (get_clips doc l).foldl
    (fun p c => layer_observer_connect_to_clip doc ignore p.1 p.2 c) (lo0, w1)
  (q.2, q.1)

structure TimelineObserverS where
  layer_observers : List (Nat × LayerObserverS)
  deriving DecidableEq

/-- `TimelineObserver._connect_to_layer`: push `LayerAdded`, then construct
and register a `LayerObserver`. -/
def timeline_observer_connect_to_layer (doc : DocState) (ignore : List String)
    (w : World) (tos : TimelineObserverS) (l : Nat) : World × TimelineObserverS :=
  let w1 := pushAction w (.layerAdded l)
  let q := layer_observer_init doc ignore w1 l
  (q.1, { tos with layer_observers := alSet tos.layer_observers l q.2 })

/-- `TimelineObserver.__init__`. -/
def timeline_observer_init (doc : DocState) (ignore : List String) (w : World) :
    World × TimelineObserverS :=
  let q := doc.timelineLayers.foldl
    (fun p l => timeline_observer_connect_to_layer doc ignore p.1 p.2 l)
    (w, { layer_observers := [] })
  (connectSig (connectSig q.1 .timeline "layer-added") .timeline "layer-removed", q.2)

/-- `TimelineObserver.__layer_removed_cb`: push a `LayerRemoved` action.
This is the complete body: the registered `LayerObserver` is not released
and stays in `layer_observers`. -/
def timeline_layer_removed_cb (w : World) (tos : TimelineObserverS) (l : Nat) :
    World × TimelineObserverS :=
  (pushAction w (.layerRemoved l), tos)

/-! ### Scenario records (`asScenarioAction`) -/

structure TimelineUIState where
  editing_context : Option Nat
  deriving DecidableEq

/-- UI-side attributes read by `ClipAdded.asScenarioAction`:
`layer.splitting_object` (when the attribute exists) and `timeline.ui`
(`none` covers both a missing and a falsy `ui`). -/
structure ScenarioEnv where
  layer_splitting_object : Option Bool
  timeline_ui : Option TimelineUIState
  deriving DecidableEq

/-- A value stored in a `Gst.Structure` field.  Python's true division of
nanoseconds by `Gst.SECOND` is modelled exactly in ℚ. -/
inductive ScenarioValue where
  | strOpt (s : Option String)
  | str (s : String)
  | natV (n : Nat)
  | ratV (q : ℚ)
  deriving DecidableEq

structure ScenarioStruct where
  name : String
  fields : List (String × ScenarioValue)
  deriving DecidableEq

/-- `Gst.SECOND`. -/
def gstSecond : Nat := 1000000000

/-- `ClipAdded.asScenarioAction`. -/
def clip_added_as_scenario_action (doc : DocState) (env : ScenarioEnv)
    (layer clip : Nat) : Option ScenarioStruct :=
  if env.layer_splitting_object = some true then none
  else if (match env.timeline_ui with
           | some u => u.editing_context.isSome
           | none => false) then none
  else
    match alLookup doc.clips clip, alLookup doc.layerPriority layer with
    | some cd, some prio =>
        some { name := "add-clip",
               fields := [("name", .strOpt cd.name),
                          ("layer-priority", .natV prio),
                          ("asset-id", .str cd.asset_id),
                          ("type", .str cd.type_name),
                          ("start", .ratV ((cd.start : ℚ) / (gstSecond : ℚ))),
                          ("inpoint", .ratV ((cd.in_point : ℚ) / (gstSecond : ℚ))),
                          ("duration", .ratV ((cd.duration : ℚ) / (gstSecond : ℚ)))] }
    | _, _ => none

/-- Applicability of `do()` for the single-object action variants named by
the round-trip claim: the action's captured old state matches the current
document state (for a keyframe curve additionally the curve is sorted by
timestamp, the controller's representation invariant), and, for
`KeyframeChangedAction`, the two snapshots share one timestamp, exactly as
`_keyframe_moved_cb` constructs them. -/
def round_trip_applicable : Action → DocState → Prop
  | .trackElementPropertyChanged te p old _nw, s =>
      ∃ ed, alLookup s.elems te = some ed ∧ getPSpecProp ed.props p = some old
  | .keyframeAdded cs kf _info, s =>
      ∃ curve, alLookup s.csKeyframes cs = some curve ∧
        alLookup curve kf.timestamp = none
  | .keyframeRemoved cs kf _info, s =>
      ∃ curve, alLookup s.csKeyframes cs = some curve ∧ kfSorted curve ∧
        alLookup curve kf.timestamp = some kf.value
  | .keyframeChanged cs olds news, s =>
      olds.1 = news.1 ∧
      ∃ curve, alLookup s.csKeyframes cs = some curve ∧ kfSorted curve ∧
        alLookup curve olds.1 = some olds.2
  | .layerMoved l oldp _p, s => alLookup s.layerPriority l = some oldp
  | .activePropertyChanged ea act, s =>
      ∃ te ed, ea.track_element = some te ∧ alLookup s.elems te = some ed ∧
        ed.active = (!act)
  | _, _ => False

/-- A concrete document for witnesses: one layer (id 0, priority 1). -/
def c1ExampleDoc : DocState :=
  { clips := [], elems := [], csKeyframes := [], layerClips := [],
    layerPriority := [(0, 1)], timelineLayers := [0], nextId := 10, commits := 0 }

/-- A transition-removal candidate on layer 1, window (10, 20). -/
def tcrEx : TransitionClipRemovedData :=
  { ges_layer := 1, start := 10, duration := 20, track_element := 99,
    properties := [] }

/-- A document with a single layer (id 5, priority 0) and no clips. -/
def c3Doc : DocState :=
  { clips := [], elems := [], csKeyframes := [], layerClips := [(5, [])],
    layerPriority := [(5, 0)], timelineLayers := [5], nextId := 0, commits := 0 }

/-- The nested/derived action variants of the claim (everything but the four
structural clip/layer add/remove actions). -/
def derived_action : Action → Prop
  | .trackElementPropertyChanged .. => True
  | .effectAdded .. => True
  | .effectRemoved .. => True
  | .transitionClipAdded .. => True
  | .transitionClipRemoved .. => True
  | .layerMoved .. => True
  | .keyframeAdded .. => True
  | .keyframeRemoved .. => True
  | .keyframeChanged .. => True
  | .activePropertyChanged .. => True
  | _ => False

/-- An observer whose snapshot holds timestamp 7 with value 5. -/
def c5Obs : ControlSourceObserverS :=
  { control_source := some 3, action_info := [], keyframes := [(7, (7, 5))] }

/-- A document with one effect element (id 1) whose only child property is
`GstVolume::volume = 10`, unbound. -/
def c6Doc : DocState :=
  { clips := [], elems := [(1,
      { name := "vol", isVideoTransition := false, isBaseEffect := true,
        isVideoSource := false, props := [(⟨"GstVolume", "volume"⟩, 10)],
        gprops := [], active := true, bindings := [] })],
    csKeyframes := [], layerClips := [], layerPriority := [],
    timelineLayers := [], nextId := 0, commits := 0 }

/-- Observer of element 1 whose snapshot still holds the old value 4. -/
def c6Obs : TimelineElementObserverS :=
  { ges_timeline_element := some 1, properties := [("GstVolume::volume", 4)] }

/-- The audio transition clip (id 3): window (2, 3), one non-video child. -/
def c7AudioTransClip : ClipData :=
  { name := none, isTransition := true, start := 2, duration := 3,
    in_point := 0, asset_id := "", type_name := "", children := [9] }

/-- The video transition clip (id 4): window (2, 3), video element 8. -/
def c7VideoTransClip : ClipData :=
  { name := none, isTransition := true, start := 2, duration := 3,
    in_point := 0, asset_id := "", type_name := "", children := [8] }

/-- A non-video transition element (the audio transition's child). -/
def c7AudioElem : ElemData :=
  { name := "", isVideoTransition := false, isBaseEffect := false,
    isVideoSource := false, props := [], gprops := [], active := true,
    bindings := [] }

/-- A `GES.VideoTransition` element. -/
def c7VideoElem : ElemData :=
  { name := "", isVideoTransition := true, isBaseEffect := false,
    isVideoSource := false, props := [], gprops := [], active := true,
    bindings := [] }

/-- A layer (id 0) holding the audio transition clip (id 3, skipped) before
the video transition clip (id 4) with video element 8, both window (2, 3). -/
def c7Doc : DocState :=
  { clips := [(3, c7AudioTransClip), (4, c7VideoTransClip)],
    elems := [(9, c7AudioElem), (8, c7VideoElem)],
    csKeyframes := [], layerClips := [(0, [3, 4])], layerPriority := [(0, 0)],
    timelineLayers := [0], nextId := 20, commits := 0 }

/-- A layer observer with no registered sub-observers. -/
def c8EmptyLayerObserver : LayerObserverS :=
  { ges_layer := 0, priority := 0, keyframe_observers := [],
    track_element_observers := [], clip_observers := [] }

/-- The clip of spec scenario 2: start 0, duration 10 s, in-point 0. -/
def c9Clip : ClipData :=
  { name := some "c0", isTransition := false, start := 0,
    duration := 10 * gstSecond, in_point := 0, asset_id := "a.ogg",
    type_name := "GESUriClip", children := [] }

/-- A document holding `c9Clip` (id 2) on layer 0 (priority 0). -/
def c9Doc : DocState :=
  { clips := [(2, c9Clip)], elems := [], csKeyframes := [],
    layerClips := [(0, [2])], layerPriority := [(0, 0)],
    timelineLayers := [0], nextId := 5, commits := 0 }

def isLayerAdded : Action → Bool
  | .layerAdded _ => true
  | _ => false

def isClipAdded : Action → Bool
  | .clipAdded _ _ => true
  | _ => false

/-- Log entries that are neither `LayerAdded` nor `ClipAdded`. -/
def benign_entries (xs : List Action) : Prop :=
  ∀ x ∈ xs, isLayerAdded x = false ∧ isClipAdded x = false

/-! ### Association-list and keyframe-curve lemmas -/

theorem alLookup_alSet {κ ν : Type} [DecidableEq κ] (l : List (κ × ν)) (k : κ) (v : ν) :
    alLookup (alSet l k v) k = some v := by
  induction l with
  | nil => simp [alSet, alLookup]
  | cons h t ih =>
      obtain ⟨k2, v2⟩ := h
      by_cases hk : k = k2
      · simp [alSet, alLookup, hk]
      · simp [alSet, alLookup, hk, ih]

theorem alSet_alSet {κ ν : Type} [DecidableEq κ] (l : List (κ × ν)) (k : κ) (a b : ν) :
    alSet (alSet l k a) k b = alSet l k b := by
  induction l with
  | nil => simp [alSet]
  | cons h t ih =>
      obtain ⟨k2, v2⟩ := h
      by_cases hk : k = k2
      · simp [alSet, hk]
      · simp [alSet, hk, ih]

theorem alSet_self {κ ν : Type} [DecidableEq κ] {l : List (κ × ν)} {k : κ} {v : ν}
    (h : alLookup l k = some v) : alSet l k v = l := by
  induction l with
  | nil => simp [alLookup] at h
  | cons hd t ih =>
      obtain ⟨k2, v2⟩ := hd
      by_cases hk : k = k2
      · simp [alLookup, hk] at h
        simp [alSet, hk, h]
      · simp [alLookup, hk] at h
        simp [alSet, hk, ih h]

/-- Writing back the previously looked-up value round-trips an update. -/
theorem alSet_restore {κ ν : Type} [DecidableEq κ] {l : List (κ × ν)} {k : κ} {old : ν}
    (nw : ν) (h : alLookup l k = some old) : alSet (alSet l k nw) k old = l := by
  rw [alSet_alSet, alSet_self h]

theorem alErase_alSet {κ ν : Type} [DecidableEq κ] {l : List (κ × ν)} {k : κ}
    (v : ν) (h : alLookup l k = none) : alErase (alSet l k v) k = l := by
  induction l with
  | nil => simp [alSet, alErase]
  | cons hd t ih =>
      obtain ⟨k2, v2⟩ := hd
      by_cases hk : k = k2
      · simp [alLookup, hk] at h
      · simp [alLookup, hk] at h
        simp [alSet, alErase, hk, ih h]

theorem alLookup_mem_keys {κ ν : Type} [DecidableEq κ] {l : List (κ × ν)} {k : κ} {v : ν}
    (h : alLookup l k = some v) : k ∈ l.map Prod.fst := by
  induction l with
  | nil => simp [alLookup] at h
  | cons hd t ih =>
      obtain ⟨k2, v2⟩ := hd
      by_cases hk : k = k2
      · simp [hk]
      · simp [alLookup, hk] at h
        simp [ih h]

/-- Re-adding a just-removed keyframe restores a sorted curve exactly. -/
theorem kfSet_alErase {l : List (Nat × Int)} {ts : Nat} {v : Int}
    (hs : kfSorted l) (h : alLookup l ts = some v) : kfSet (alErase l ts) ts v = l := by
  induction l with
  | nil => simp [alLookup] at h
  | cons hd t ih =>
      obtain ⟨t0, w0⟩ := hd
      rw [kfSorted, List.pairwise_cons] at hs
      by_cases hk : ts = t0
      · simp [alLookup, hk] at h
        subst hk
        subst h
        simp only [alErase, if_pos rfl]
        cases t with
        | nil => simp [kfSet]
        | cons hd2 t2 =>
            obtain ⟨t1, w1⟩ := hd2
            have h01 : ts < t1 := hs.1 (t1, w1) (by simp)
            have hne : ¬ ts = t1 := Nat.ne_of_lt h01
            simp [kfSet, hne, h01]
      · simp [alLookup, hk] at h
        have hmem : ts ∈ t.map Prod.fst := alLookup_mem_keys h
        obtain ⟨p, hp, hp1⟩ := List.mem_map.mp hmem
        have hlt : t0 < ts := by
          have := hs.1 p hp
          omega
        have hlt2 : ¬ ts < t0 := by omega
        simp only [alErase, if_neg hk]
        simp [kfSet, hk, hlt2, ih hs.2 h]

/-- Removing a just-added keyframe restores the curve (the timestamp was
absent before the add). -/
theorem alErase_kfSet {l : List (Nat × Int)} {ts : Nat} (v : Int)
    (h : alLookup l ts = none) : alErase (kfSet l ts v) ts = l := by
  induction l with
  | nil => simp [kfSet, alErase]
  | cons hd t ih =>
      obtain ⟨t0, w0⟩ := hd
      by_cases hk : ts = t0
      · simp [alLookup, hk] at h
      · simp [alLookup, hk] at h
        by_cases hlt : ts < t0
        · simp [kfSet, hk, hlt, alErase]
        · simp [kfSet, hk, hlt, alErase, ih h]

/-- Overwriting a keyframe value and writing the old value back restores a
sorted curve. -/
theorem kfSet_restore {l : List (Nat × Int)} {ts : Nat} {old : Int} (nw : Int)
    (hs : kfSorted l) (h : alLookup l ts = some old) :
    kfSet (kfSet l ts nw) ts old = l := by
  induction l with
  | nil => simp [alLookup] at h
  | cons hd t ih =>
      obtain ⟨t0, w0⟩ := hd
      rw [kfSorted, List.pairwise_cons] at hs
      by_cases hk : ts = t0
      · simp [alLookup, hk] at h
        subst hk
        simp [kfSet, h]
      · simp [alLookup, hk] at h
        have hmem : ts ∈ t.map Prod.fst := alLookup_mem_keys h
        obtain ⟨p, hp, hp1⟩ := List.mem_map.mp hmem
        have hlt : t0 < ts := by
          have := hs.1 p hp
          omega
        have hlt2 : ¬ ts < t0 := by omega
        simp [kfSet, hk, hlt2, ih hs.2 h]

theorem setPSpecProp_restore {l : List (PSpec × Int)} {p : String} {old : Int}
    (nw : Int) (h : getPSpecProp l p = some old) :
    setPSpecProp (setPSpecProp l p nw) p old = l := by
  induction l with
  | nil => simp [getPSpecProp] at h
  | cons hd t ih =>
      obtain ⟨q, w⟩ := hd
      by_cases hq : child_property_name q = p
      · simp [getPSpecProp, hq] at h
        simp [setPSpecProp, hq, h]
      · simp [getPSpecProp, hq] at h
        simp [setPSpecProp, hq, ih h]

/-! ### C1: single-action round trip -/

/-- **C1**: for every Action variant named by the claim
(`TrackElementPropertyChanged`, `KeyframeAddedAction`,
`KeyframeRemovedAction`, `KeyframeChangedAction`, `LayerMoved`,
`ActivePropertyChanged`) and every document state in which its `do()` is
applicable, `undo` after `do` restores the state exactly (all tracked
fields: children, property values, keyframes, layer priority, the active
flag) and also restores the action's own internal fields. -/
theorem c1_single_action_round_trip (a : Action) (s : DocState)
    (h : round_trip_applicable a s) :
    ∃ s1 a1, stepDo a s = .ok (s1, a1) ∧ stepUndo a1 s1 = .ok (s, a) := by
  cases a with
  | trackElementPropertyChanged te p old nw =>
      obtain ⟨ed, he, hp⟩ := h
      refine ⟨_, _, rfl, ?_⟩
      simp only [stepDo, stepUndo, set_child_property, he, alLookup_alSet,
        setPSpecProp_restore nw hp, alSet_alSet, alSet_self he]
  | keyframeAdded cs kf info =>
      obtain ⟨curve, hc, hts⟩ := h
      refine ⟨_, _, rfl, ?_⟩
      simp only [stepDo, stepUndo, cs_set, cs_unset, hc, alLookup_alSet,
        alErase_kfSet kf.value hts, alSet_alSet, alSet_self hc]
  | keyframeRemoved cs kf info =>
      obtain ⟨curve, hc, hsort, hts⟩ := h
      refine ⟨_, _, rfl, ?_⟩
      simp only [stepDo, stepUndo, cs_set, cs_unset, hc, alLookup_alSet,
        kfSet_alErase hsort hts, alSet_alSet, alSet_self hc]
  | keyframeChanged cs olds news =>
      obtain ⟨hts, curve, hc, hsort, hl⟩ := h
      refine ⟨_, _, rfl, ?_⟩
      rw [← hts]
      simp only [stepDo, stepUndo, cs_set, hc, alLookup_alSet,
        kfSet_restore news.2 hsort hl, alSet_alSet, alSet_self hc]
  | layerMoved l oldp p =>
      have hl : alLookup s.layerPriority l = some oldp := h
      refine ⟨_, _, rfl, ?_⟩
      simp only [stepDo, stepUndo, set_layer_priority, hl, alLookup_alSet,
        alSet_alSet, alSet_self hl]
  | activePropertyChanged ea act =>
      obtain ⟨te, ed, hte, hed, hact⟩ := h
      have hstate : set_active (set_active s te act) te (!act) = s := by
        simp only [set_active, hed, alLookup_alSet, ← hact, alSet_alSet,
          alSet_self hed]
      refine ⟨set_active s te act, .activePropertyChanged ea (!act), ?_, ?_⟩
      · simp only [stepDo, hte]
      · simp only [stepUndo, hte, hstate, Bool.not_not]
  | effectAdded d => exact absurd h (by simp [round_trip_applicable])
  | effectRemoved d => exact absurd h (by simp [round_trip_applicable])
  | clipAdded l c => exact absurd h (by simp [round_trip_applicable])
  | clipRemoved l c tras => exact absurd h (by simp [round_trip_applicable])
  | transitionClipAdded d => exact absurd h (by simp [round_trip_applicable])
  | transitionClipRemoved d => exact absurd h (by simp [round_trip_applicable])
  | layerAdded l => exact absurd h (by simp [round_trip_applicable])
  | layerRemoved l => exact absurd h (by simp [round_trip_applicable])

/-- Witness for C1 at a concrete `LayerMoved` action. -/
theorem c1_single_action_round_trip_witness :
    round_trip_applicable (.layerMoved 0 1 2) c1ExampleDoc ∧
    ∃ s1 a1, stepDo (.layerMoved 0 1 2) c1ExampleDoc = .ok (s1, a1) ∧
      stepUndo a1 s1 = .ok (c1ExampleDoc, .layerMoved 0 1 2) :=
  ⟨rfl, c1_single_action_round_trip (.layerMoved 0 1 2) c1ExampleDoc rfl⟩

/-! ### C2: ClipRemoved.expand -/

/-- **C2 counterexample**: a `ClipRemoved` on layer 0 absorbs (returns
`true` and appends) a `TransitionClipRemovedAction` whose layer is 1 and
whose time-window was never compared — the claim predicts rejection for a
non-matching candidate. -/
theorem c2_expand_counterexample :
    clip_removed_expand 0 5 [] (.transitionClipRemoved tcrEx) = (true, [tcrEx]) ∧
    tcrEx.ges_layer ≠ 0 := by
  exact ⟨rfl, by decide⟩

/-- **C2 amended**: `expand` absorbs its candidate iff the candidate is a
`TransitionClipRemovedAction` (no layer or time-window check, no
log-position check); an absorbed candidate is appended to
`transition_removed_actions` (whose `undo` is later replayed by
`ClipRemoved.undo`), every other candidate is rejected with the receiver
unchanged. -/
theorem c2_expand_absorbs_iff_transition_removed (layer clip : Nat)
    (tras : List TransitionClipRemovedData) (action : Action) :
    ((clip_removed_expand layer clip tras action).1 = true ↔
      ∃ a, action = .transitionClipRemoved a) ∧
    (∀ a, action = .transitionClipRemoved a →
      clip_removed_expand layer clip tras action = (true, tras ++ [a])) ∧
    ((∀ a, action ≠ .transitionClipRemoved a) →
      clip_removed_expand layer clip tras action = (false, tras)) := by
  cases action <;> simp [clip_removed_expand]

/-- Witness for C2 amended: a `ClipAdded` candidate is rejected, a
`TransitionClipRemovedAction` candidate is absorbed. -/
theorem c2_expand_witness :
    clip_removed_expand 0 5 [] (.clipAdded 0 7) = (false, []) ∧
    clip_removed_expand 2 6 [] (.transitionClipRemoved tcrEx) = (true, [tcrEx]) :=
  ⟨(c2_expand_absorbs_iff_transition_removed 0 5 [] (.clipAdded 0 7)).2.2
      (fun _ h => Action.noConfusion h),
   (c2_expand_absorbs_iff_transition_removed 2 6 []
      (.transitionClipRemoved tcrEx)).2.1 tcrEx rfl⟩

/-! ### C3: layer observers are never released -/

/-- **C3** (evidence of the code bug): observe a one-layer timeline, then
deliver the layer-removed signal.  `__layer_removed_cb` only pushes a
`LayerRemoved` action: the `LayerObserver` stays registered in
`layer_observers` and its `clip-added` / `clip-removed` /
`notify::priority` callbacks stay connected to the removed layer — it is
not released, contradicting the synchronous-release invariant. -/
theorem c3_layer_observer_not_released :
    (let q := timeline_observer_init c3Doc [] { log := [], connections := [] }
     let r := timeline_layer_removed_cb q.1 q.2 5
     (alLookup r.2.layer_observers 5).isSome = true ∧
     (GObj.layer 5, "clip-added") ∈ r.1.connections ∧
     (GObj.layer 5, "clip-removed") ∈ r.1.connections ∧
     (GObj.layer 5, "notify::priority") ∈ r.1.connections ∧
     r.1.log = [.layerAdded 5, .layerRemoved 5]) := by
  decide

/-! ### C4: commit discipline -/

theorem commits_commit_timeline (s : DocState) :
    (commit_timeline s).commits = s.commits + 1 := rfl

theorem commits_set_child_property (s : DocState) (e : Nat) (p : String) (v : Int) :
    (set_child_property s e p v).commits = s.commits := by
  unfold set_child_property
  split <;> rfl

theorem commits_set_gobject_property (s : DocState) (e : Nat) (p : String) (v : Int) :
    (set_gobject_property s e p v).commits = s.commits := by
  unfold set_gobject_property
  split <;> rfl

theorem commits_cs_set (s : DocState) (cs ts : Nat) (v : Int) :
    (cs_set s cs ts v).commits = s.commits := by
  unfold cs_set
  split <;> rfl

theorem commits_cs_unset (s : DocState) (cs ts : Nat) :
    (cs_unset s cs ts).commits = s.commits := by
  unfold cs_unset
  split <;> rfl

theorem commits_set_layer_priority (s : DocState) (l p : Nat) :
    (set_layer_priority s l p).commits = s.commits := by
  unfold set_layer_priority
  split <;> rfl

theorem commits_set_active (s : DocState) (e : Nat) (v : Bool) :
    (set_active s e v).commits = s.commits := by
  unfold set_active
  split <;> rfl

theorem commits_set_clip_name (s : DocState) (c : Nat) (n : Option String) :
    (set_clip_name s c n).commits = s.commits := by
  unfold set_clip_name
  split <;> rfl

theorem commits_add_clip (s : DocState) (l c : Nat) :
    (add_clip s l c).commits = s.commits := by
  unfold add_clip
  split <;> rfl

theorem commits_remove_clip (s : DocState) (l c : Nat) :
    (remove_clip s l c).commits = s.commits := by
  unfold remove_clip
  split <;> rfl

theorem commits_clip_remove_child (s : DocState) (c te : Nat) :
    (clip_remove_child s c te).commits = s.commits := by
  unfold clip_remove_child
  split <;> rfl

theorem commits_clip_add_asset (s : DocState) (c a : Nat) :
    (clip_add_asset s c a).1.commits = s.commits := by
  unfold clip_add_asset
  dsimp only
  split <;> rfl

theorem commits_foldl_set_child_property (props : List (String × Int)) (e : Nat)
    (s : DocState) :
    (props.foldl (fun st pv => set_child_property st e pv.1 pv.2) s).commits
      = s.commits := by
  induction props generalizing s with
  | nil => rfl
  | cons hd t ih =>
      rw [List.foldl_cons]
      exact (ih _).trans (commits_set_child_property _ _ _ _)

theorem commits_foldl_set_gobject_property (props : List (String × Int)) (e : Nat)
    (s : DocState) :
    (props.foldl (fun st pv => set_gobject_property st e pv.1 pv.2) s).commits
      = s.commits := by
  induction props generalizing s with
  | nil => rfl
  | cons hd t ih =>
      rw [List.foldl_cons]
      exact (ih _).trans (commits_set_gobject_property _ _ _ _)

theorem commits_transition_clip_removed_undo (s : DocState)
    (a : TransitionClipRemovedData) :
    (transition_clip_removed_undo s a).1.commits = s.commits := by
  unfold transition_clip_removed_undo
  split
  · exact commits_foldl_set_gobject_property _ _ _
  · rfl

theorem commits_track_element_action_add (s : DocState)
    (a : TrackElementActionData) :
    (track_element_action_add s a).1.commits = s.commits := by
  unfold track_element_action_add
  dsimp only
  exact (commits_foldl_set_child_property _ _ _).trans (commits_clip_add_asset _ _ _)

theorem commits_clip_removed_undo_fold (tras : List TransitionClipRemovedData)
    (s : DocState) (acc : List TransitionClipRemovedData) :
    ((tras.foldl (fun p t =>
        let q := transition_clip_removed_undo p.1 t
        (q.1, p.2 ++ [q.2])) (s, acc)).1).commits = s.commits := by
  induction tras generalizing s acc with
  | nil => rfl
  | cons hd t ih =>
      rw [List.foldl_cons]
      exact (ih _ _).trans (commits_transition_clip_removed_undo s hd)

/-- **C4 counterexample**: `LayerAdded.do` performs no materialization call
at all (its body is just `add_layer`), while the claim requires exactly one
`commit_timeline` in each of `do()` and `undo()` of `LayerAdded`. -/
theorem c4_layer_added_do_no_commit_counterexample :
    (stepDo (.layerAdded 7) c1ExampleDoc).map (fun q => q.1.commits) = .ok 0 ∧
    c1ExampleDoc.commits = 0 :=
  ⟨rfl, rfl⟩

/-- **C4 amended**: `ClipAdded` and `ClipRemoved` perform exactly one
`commit_timeline` in `do()` and one in `undo()`; `LayerAdded` performs none
in `do()` and exactly one in `undo()`; `LayerRemoved` exactly one in `do()`
and none in `undo()`; nested/derived actions (effect add/remove, keyframe
changes, property changes, layer moves, active toggles, transition actions)
perform none. -/
theorem c4_commit_discipline (s : DocState) (layer clip : Nat)
    (tras : List TransitionClipRemovedData) :
    ((stepDo (.clipAdded layer clip) s).map (fun q => q.1.commits)
        = .ok (s.commits + 1)) ∧
    ((stepUndo (.clipAdded layer clip) s).map (fun q => q.1.commits)
        = .ok (s.commits + 1)) ∧
    ((stepDo (.clipRemoved layer clip tras) s).map (fun q => q.1.commits)
        = .ok (s.commits + 1)) ∧
    ((stepUndo (.clipRemoved layer clip tras) s).map (fun q => q.1.commits)
        = .ok (s.commits + 1)) ∧
    ((stepDo (.layerAdded layer) s).map (fun q => q.1.commits) = .ok s.commits) ∧
    ((stepUndo (.layerAdded layer) s).map (fun q => q.1.commits)
        = .ok (s.commits + 1)) ∧
    ((stepDo (.layerRemoved layer) s).map (fun q => q.1.commits)
        = .ok (s.commits + 1)) ∧
    ((stepUndo (.layerRemoved layer) s).map (fun q => q.1.commits) = .ok s.commits) ∧
    (∀ a, derived_action a →
      (∀ q, stepDo a s = .ok q → q.1.commits = s.commits) ∧
      (∀ q, stepUndo a s = .ok q → q.1.commits = s.commits)) := by
  refine ⟨?_, ?_, ?_, ?_, ?_, ?_, ?_, ?_, ?_⟩
  · simp [stepDo, Except.map, commits_commit_timeline, commits_add_clip,
      commits_set_clip_name, commit_timeline]
  · simp [stepUndo, Except.map, commits_remove_clip, commit_timeline]
  · simp [stepDo, Except.map, commits_remove_clip, commit_timeline]
  · simp only [stepUndo, Except.map]
    rw [commits_clip_removed_undo_fold]
    simp [commit_timeline, commits_add_clip, commits_set_clip_name]
  · simp [stepDo, Except.map, add_layer]
  · simp [stepUndo, Except.map, commit_timeline, remove_layer]
  · simp [stepDo, Except.map, commit_timeline, remove_layer]
  · simp [stepUndo, Except.map, add_layer]
  · intro a hd
    cases a with
    | trackElementPropertyChanged te p old nw =>
        constructor <;> intro q h <;> injection h with h2 <;> rw [← h2] <;>
          exact commits_set_child_property _ _ _ _
    | effectAdded d =>
        constructor
        · intro q h
          simp only [stepDo] at h
          injection h with h2
          rw [← h2]
          exact commits_track_element_action_add _ _
        · intro q h
          simp only [stepUndo] at h
          cases hte : d.track_element with
          | none => simp [track_element_action_remove, hte, Except.map] at h
          | some te =>
              simp [track_element_action_remove, hte, Except.map] at h
              rw [← h]
              exact commits_clip_remove_child _ _ _
    | effectRemoved d =>
        constructor
        · intro q h
          simp only [stepDo] at h
          cases hte : d.track_element with
          | none => simp [track_element_action_remove, hte, Except.map] at h
          | some te =>
              simp [track_element_action_remove, hte, Except.map] at h
              rw [← h]
              exact commits_clip_remove_child _ _ _
        · intro q h
          simp only [stepUndo] at h
          injection h with h2
          rw [← h2]
          exact commits_track_element_action_add _ _
    | transitionClipAdded d =>
        constructor
        · intro q h
          simp only [stepDo] at h
          cases hf : find_video_transition s d.ges_layer d.start d.duration with
          | none => rw [hf] at h; cases h
          | some te =>
              rw [hf] at h
              injection h with h2
              rw [← h2]
        · intro q h
          injection h with h2
          rw [← h2]
    | transitionClipRemoved d =>
        constructor
        · intro q h
          injection h with h2
          rw [← h2]
        · intro q h
          simp only [stepUndo] at h
          injection h with h2
          rw [← h2]
          exact commits_transition_clip_removed_undo _ _
    | layerMoved l oldp p =>
        constructor <;> intro q h <;> injection h with h2 <;> rw [← h2] <;>
          exact commits_set_layer_priority _ _ _
    | keyframeAdded cs kf info =>
        constructor <;> intro q h <;> injection h with h2 <;> rw [← h2]
        · exact commits_cs_set _ _ _ _
        · exact commits_cs_unset _ _ _
    | keyframeRemoved cs kf info =>
        constructor <;> intro q h <;> injection h with h2 <;> rw [← h2]
        · exact commits_cs_unset _ _ _
        · exact commits_cs_set _ _ _ _
    | keyframeChanged cs olds news =>
        constructor <;> intro q h <;> injection h with h2 <;> rw [← h2] <;>
          exact commits_cs_set _ _ _ _
    | activePropertyChanged ea act =>
        constructor <;> intro q h <;>
          cases hte : ea.track_element with
          | none => simp only [stepDo, stepUndo, hte] at h; cases h
          | some te =>
              simp only [stepDo, stepUndo, hte] at h
              injection h with h2
              rw [← h2]
              exact commits_set_active _ _ _
    | clipAdded l c => exact hd.elim
    | clipRemoved l c tr => exact hd.elim
    | layerAdded l => exact hd.elim
    | layerRemoved l => exact hd.elim

/-- Witness for C4 amended: one materialization for `ClipAdded.do`, none for
a `LayerMoved.do`, at a concrete document. -/
theorem c4_commit_discipline_witness :
    ((stepDo (.clipAdded 0 3) c1ExampleDoc).map (fun q => q.1.commits) = .ok 1) ∧
    (set_layer_priority c1ExampleDoc 0 2).commits = 0 :=
  ⟨(c4_commit_discipline c1ExampleDoc 0 3 []).1,
   ((c4_commit_discipline c1ExampleDoc 0 3 []).2.2.2.2.2.2.2.2
      (.layerMoved 0 1 2) trivial).1
     (set_layer_priority c1ExampleDoc 0 2, .layerMoved 0 1 2) rfl⟩

/-! ### C5: keyframe-removed callback data flow -/

/-- **C5 counterexample**: the pushed `KeyframeRemovedAction` carries the
pair of the signal's `keyframe` argument, not the snapshot pair: delivering
⟨7, 9⟩ while the snapshot stores (7, 5) pushes value 9, not 5. -/
theorem c5_keyframe_removed_pair_counterexample :
    keyframe_removed_cb { log := [], connections := [] } c5Obs 3 ⟨7, 9⟩ =
      .ok ({ log := [.keyframeRemoved 3 ⟨7, 9⟩ []], connections := [] },
           { control_source := some 3, action_info := [], keyframes := [] }) ∧
    alLookup c5Obs.keyframes 7 = some (7, 5) ∧
    ((7 : Nat), (9 : Int)) ≠ ((7 : Nat), (5 : Int)) :=
  ⟨rfl, rfl, by decide⟩

/-- **C5 amended**: on a keyframe-removed notification whose timestamp is in
the snapshot, the callback pushes exactly one `KeyframeRemovedAction`
carrying the `(timestamp, value)` pair of the signal's keyframe argument
(nothing is re-read from the already-mutated live control source) and
removes that timestamp from the snapshot; whenever the snapshot is in sync
with the notification the pushed pair therefore equals the snapshot pair. -/
theorem c5_keyframe_removed_cb_spec (w : World) (o : ControlSourceObserverS)
    (cs : Nat) (kf : Keyframe) (p : Nat × Int)
    (h : alLookup o.keyframes kf.timestamp = some p) :
    (keyframe_removed_cb w o cs kf =
      .ok (pushAction w (.keyframeRemoved cs kf o.action_info),
           { o with keyframes := alErase o.keyframes kf.timestamp })) ∧
    (p = (kf.timestamp, kf.value) →
      Action.keyframeRemoved cs kf o.action_info
        = .keyframeRemoved cs ⟨p.1, p.2⟩ o.action_info) := by
  constructor
  · simp [keyframe_removed_cb, h]
  · intro hp
    rw [hp]

/-- Witness for C5 amended at an in-sync snapshot. -/
theorem c5_keyframe_removed_cb_spec_witness :
    keyframe_removed_cb { log := [], connections := [] } c5Obs 3 ⟨7, 5⟩ =
      .ok (pushAction { log := [], connections := [] }
            (.keyframeRemoved 3 ⟨7, 5⟩ c5Obs.action_info),
           { c5Obs with keyframes := alErase c5Obs.keyframes 7 }) :=
  (c5_keyframe_removed_cb_spec { log := [], connections := [] } c5Obs 3 ⟨7, 5⟩
    (7, 5) rfl).1

/-! ### C6: property-change filtering -/

/-- **C6**: on a property-change notification, a denylisted short name or a
live control binding on the property yields no action and leaves the
snapshot unchanged; otherwise exactly one `TrackElementPropertyChanged`
action with `(old, new)` = (snapshotted value, current value) is pushed and
the snapshot is updated to the new value. -/
theorem c6_property_changed_filtering (doc : DocState) (ignore : List String)
    (w : World) (o : TimelineElementObserverS) (e : Nat) (pspec : PSpec) :
    (pspec.name ∈ ignore →
      property_changed_cb doc ignore w o e pspec = .ok (w, o)) ∧
    (∀ b, get_control_binding doc e (child_property_name pspec) = some b →
      property_changed_cb doc ignore w o e pspec = .ok (w, o)) ∧
    (pspec.name ∉ ignore →
      get_control_binding doc e (child_property_name pspec) = none →
      ∀ old nw, alLookup o.properties (child_property_name pspec) = some old →
        get_child_property doc e (child_property_name pspec) = some nw →
        property_changed_cb doc ignore w o e pspec =
          .ok (pushAction w (.trackElementPropertyChanged e
                  (child_property_name pspec) old nw),
               ⟨o.ges_timeline_element,
                alSet o.properties (child_property_name pspec) nw⟩)) := by
  refine ⟨?_, ?_, ?_⟩
  · intro hmem
    simp [property_changed_cb, hmem]
  · intro b hb
    by_cases hmem : pspec.name ∈ ignore
    · simp [property_changed_cb, hmem]
    · simp [property_changed_cb, hmem, hb]
  · intro hmem hb old nw hold hnew
    simp [property_changed_cb, hmem, hb, hold, hnew]

/-- Witness for C6: an unbound, non-denylisted change pushes exactly
`TrackElementPropertyChanged(old=4, new=10)` and updates the snapshot. -/
theorem c6_property_changed_filtering_witness :
    property_changed_cb c6Doc ["qos"] { log := [], connections := [] } c6Obs 1
        ⟨"GstVolume", "volume"⟩ =
      .ok (pushAction { log := [], connections := [] }
            (.trackElementPropertyChanged 1 "GstVolume::volume" 4 10),
           ⟨c6Obs.ges_timeline_element,
            alSet c6Obs.properties "GstVolume::volume" 10⟩) :=
  (c6_property_changed_filtering c6Doc ["qos"] { log := [], connections := [] }
    c6Obs 1 ⟨"GstVolume", "volume"⟩).2.2 (by decide) rfl 4 10 rfl rfl

/-! ### C7: speculative transition-target resolution -/

theorem find_video_transition_go_none_iff (s : DocState) (st d : Nat)
    (cs : List Nat) :
    find_video_transition_go s st d cs = none ↔
      ∀ c ∈ cs, ∀ cd, alLookup s.clips c = some cd →
        cd.isTransition = true → cd.start = st → cd.duration = d →
        get_video_element s c = none := by
  induction cs with
  | nil => simp [find_video_transition_go]
  | cons c rest ih =>
      cases hc : alLookup s.clips c with
      | none => simp [find_video_transition_go, hc, ih]
      | some cd =>
          by_cases hcond : cd.isTransition = true ∧ cd.start = st ∧ cd.duration = d
          · cases hv : get_video_element s c with
            | some te => simp [find_video_transition_go, hc, hcond, hv]
            | none =>
                simp only [find_video_transition_go, hc, hcond, and_self, if_true,
                  hv, ih, List.forall_mem_cons]
                constructor
                · intro h
                  exact ⟨fun cd2 hcd2 _ _ _ => trivial, h⟩
                · intro h
                  exact h.2
          · simp only [find_video_transition_go, hc, if_neg hcond, ih,
              List.forall_mem_cons]
            constructor
            · intro h
              refine ⟨?_, h⟩
              intro cd2 hcd2 h1 h2 h3
              injection hcd2 with h4
              subst h4
              exact absurd ⟨h1, h2, h3⟩ hcond
            · intro h
              exact h.2

theorem find_video_transition_go_some (s : DocState) (st d : Nat)
    (cs : List Nat) (te : Nat)
    (h : find_video_transition_go s st d cs = some te) :
    ∃ c ∈ cs, ∃ cd, alLookup s.clips c = some cd ∧ cd.isTransition = true ∧
      cd.start = st ∧ cd.duration = d ∧ get_video_element s c = some te := by
  induction cs with
  | nil => simp [find_video_transition_go] at h
  | cons c rest ih =>
      rw [find_video_transition_go] at h
      cases hc : alLookup s.clips c with
      | none =>
          rw [hc] at h
          dsimp only at h
          obtain ⟨c2, hm, rest2⟩ := ih h
          exact ⟨c2, List.mem_cons_of_mem _ hm, rest2⟩
      | some cd =>
          rw [hc] at h
          dsimp only at h
          by_cases hcond : cd.isTransition = true ∧ cd.start = st ∧ cd.duration = d
          · rw [if_pos hcond] at h
            cases hv : get_video_element s c with
            | none =>
                rw [hv] at h
                obtain ⟨c2, hm, rest2⟩ := ih h
                exact ⟨c2, List.mem_cons_of_mem _ hm, rest2⟩
            | some te2 =>
                rw [hv] at h
                injection h with h2
                subst h2
                exact ⟨c, List.mem_cons_self _ _,
                  cd, hc, hcond.1, hcond.2.1, hcond.2.2, hv⟩
          · rw [if_neg hcond] at h
            obtain ⟨c2, hm, rest2⟩ := ih h
            exact ⟨c2, List.mem_cons_of_mem _ hm, rest2⟩

/-- **C7**: `TransitionClipAddedAction.do` fails loudly (the `assert`)
exactly when no transition-kind clip of the layer with the captured start
and duration contains a video element (co-located audio transitions are
skipped); otherwise it succeeds, rebinding the speculative target to the
video element of such a matching transition clip. -/
theorem c7_transition_resolution (s : DocState) (a : TransitionClipAddedData) :
    ((∃ e, stepDo (.transitionClipAdded a) s = .error e) ↔
      (∀ c ∈ get_clips s a.ges_layer, ∀ cd, alLookup s.clips c = some cd →
        cd.isTransition = true → cd.start = a.start → cd.duration = a.duration →
        get_video_element s c = none)) ∧
    (∀ te, find_video_transition s a.ges_layer a.start a.duration = some te →
      stepDo (.transitionClipAdded a) s =
        .ok (s, .transitionClipAdded ⟨a.ges_layer, a.start, a.duration, te⟩) ∧
      ∃ c ∈ get_clips s a.ges_layer, ∃ cd, alLookup s.clips c = some cd ∧
        cd.isTransition = true ∧ cd.start = a.start ∧ cd.duration = a.duration ∧
        get_video_element s c = some te) := by
  constructor
  · rw [← find_video_transition_go_none_iff]
    cases hf : find_video_transition s a.ges_layer a.start a.duration with
    | none =>
        rw [find_video_transition] at hf
        simp [stepDo, find_video_transition, hf]
    | some te =>
        rw [find_video_transition] at hf
        simp [stepDo, find_video_transition, hf]
  · intro te hf
    refine ⟨by simp [stepDo, hf], ?_⟩
    exact find_video_transition_go_some s a.start a.duration _ te hf

/-- Witness for C7: with the audio transition skipped, `do` rebinds the
target to video element 8. -/
theorem c7_transition_resolution_witness :
    stepDo (.transitionClipAdded ⟨0, 2, 3, 77⟩) c7Doc =
      .ok (c7Doc, .transitionClipAdded ⟨0, 2, 3, 8⟩) :=
  ((c7_transition_resolution c7Doc ⟨0, 2, 3, 77⟩).2 8 (by decide)).1

/-! ### C8: absent-observer behaviour on detach -/

/-- **C8 counterexample**: detaching a control-binding observer that a prior
release already removed raises `KeyError` (`pop` with no default) instead of
being the silent no-op the claim describes. -/
theorem c8_disconnect_control_source_raises_counterexample :
    layer_observer_disconnect_from_control_source c8EmptyLayerObserver
        { log := [], connections := [] } { name := "alpha", control_source := 3 } =
      .error "KeyError" := rfl

/-- **C8 amended**: detaching a track element that has no control bindings
and no registered observer (e.g. a plain audio source) is a silent no-op
leaving all state unchanged, but detaching a control-binding observer that
is absent from `keyframe_observers` raises `KeyError` — only the
track-element case is tolerated. -/
theorem c8_absent_observer_behaviour (doc : DocState) (lo : LayerObserverS)
    (w : World) (te : Nat) (b : Binding)
    (hnb : ((alLookup doc.elems te).map (fun ed => ed.bindings)).getD [] = [])
    (hno : alLookup lo.track_element_observers te = none)
    (hkf : alLookup lo.keyframe_observers b.control_source = none) :
    layer_observer_disconnect_from_track_element doc lo w te = .ok (lo, w) ∧
    layer_observer_disconnect_from_control_source lo w b = .error "KeyError" := by
  constructor
  · simp [layer_observer_disconnect_from_track_element, hnb, hno]
  · simp [layer_observer_disconnect_from_control_source, hkf]

/-- Witness for C8 amended at the empty observer. -/
theorem c8_absent_observer_behaviour_witness :
    layer_observer_disconnect_from_track_element c3Doc c8EmptyLayerObserver
        { log := [], connections := [] } 2 =
      .ok (c8EmptyLayerObserver, { log := [], connections := [] }) ∧
    layer_observer_disconnect_from_control_source c8EmptyLayerObserver
        { log := [], connections := [] } { name := "beta", control_source := 4 } =
      .error "KeyError" :=
  c8_absent_observer_behaviour c3Doc c8EmptyLayerObserver
    { log := [], connections := [] } 2 { name := "beta", control_source := 4 }
    rfl rfl rfl

/-! ### C9: ClipAdded.asScenarioAction -/

/-- **C9**: no record is produced while an interactive edit is in progress
(the layer is mid-split, or the timeline UI has a non-`None` editing
context); otherwise the record is an `add-clip` structure with the clip
name, layer priority, asset id and type, and with start/inpoint/duration
converted to seconds (nanoseconds divided by `Gst.SECOND`). -/
theorem c9_clip_added_scenario (doc : DocState) (env : ScenarioEnv)
    (layer clip : Nat) :
    (env.layer_splitting_object = some true →
      clip_added_as_scenario_action doc env layer clip = none) ∧
    (∀ u c, env.timeline_ui = some u → u.editing_context = some c →
      clip_added_as_scenario_action doc env layer clip = none) ∧
    (env.layer_splitting_object ≠ some true →
      (∀ u, env.timeline_ui = some u → u.editing_context = none) →
      ∀ cd prio, alLookup doc.clips clip = some cd →
        alLookup doc.layerPriority layer = some prio →
        clip_added_as_scenario_action doc env layer clip =
          some { name := "add-clip",
                 fields := [("name", .strOpt cd.name),
                            ("layer-priority", .natV prio),
                            ("asset-id", .str cd.asset_id),
                            ("type", .str cd.type_name),
                            ("start", .ratV ((cd.start : ℚ) / (gstSecond : ℚ))),
                            ("inpoint", .ratV ((cd.in_point : ℚ) / (gstSecond : ℚ))),
                            ("duration", .ratV ((cd.duration : ℚ) / (gstSecond : ℚ)))] }) := by
  refine ⟨?_, ?_, ?_⟩
  · intro hs
    simp [clip_added_as_scenario_action, hs]
  · intro u c hu hc
    by_cases hs : env.layer_splitting_object = some true
    · simp [clip_added_as_scenario_action, hs]
    · simp [clip_added_as_scenario_action, hs, hu, hc]
  · intro hs hui cd prio hcd hprio
    have hmatch : (match env.timeline_ui with
        | some u => u.editing_context.isSome
        | none => false) = false := by
      cases hu : env.timeline_ui with
      | none => rfl
      | some u => simp [hui u hu]
    simp [clip_added_as_scenario_action, hs, hmatch, hcd, hprio]

/-- Witness for C9: with no split and no editing context the record carries
the seconds-valued times (duration 10 s). -/
theorem c9_clip_added_scenario_witness :
    clip_added_as_scenario_action c9Doc
        { layer_splitting_object := none, timeline_ui := some { editing_context := none } } 0 2 =
      some { name := "add-clip",
             fields := [("name", .strOpt c9Clip.name),
                        ("layer-priority", .natV 0),
                        ("asset-id", .str c9Clip.asset_id),
                        ("type", .str c9Clip.type_name),
                        ("start", .ratV ((c9Clip.start : ℚ) / (gstSecond : ℚ))),
                        ("inpoint", .ratV ((c9Clip.in_point : ℚ) / (gstSecond : ℚ))),
                        ("duration", .ratV ((c9Clip.duration : ℚ) / (gstSecond : ℚ)))] } ∧
    ((c9Clip.duration : ℚ) / (gstSecond : ℚ)) = 10 :=
  ⟨(c9_clip_added_scenario c9Doc
      { layer_splitting_object := none, timeline_ui := some { editing_context := none } } 0 2).2.2
    (by simp) (fun u hu => by cases hu; rfl) c9Clip 0 rfl rfl,
   by norm_num [c9Clip, gstSecond]⟩

/-! ### C10: actions pushed while observing an existing document -/

theorem benign_entries_nil : benign_entries [] := by
  intro x hx
  cases hx

theorem benign_entries_append {xs ys : List Action} (hx : benign_entries xs)
    (hy : benign_entries ys) : benign_entries (xs ++ ys) := by
  intro x hm
  rcases List.mem_append.mp hm with h | h
  exacts [hx x h, hy x h]

theorem countP_benign_layer {xs : List Action} (hb : benign_entries xs) :
    xs.countP isLayerAdded = 0 := by
  rw [List.countP_eq_zero]
  intro a ha
  simp [(hb a ha).1]

theorem countP_benign_clip {xs : List Action} (hb : benign_entries xs) :
    xs.countP isClipAdded = 0 := by
  rw [List.countP_eq_zero]
  intro a ha
  simp [(hb a ha).2]

theorem log_foldl_benign {α β : Type} (f : (β × World) → α → (β × World))
    (hf : ∀ p a, ∃ xs, (f p a).2.log = p.2.log ++ xs ∧ benign_entries xs)
    (l : List α) (p : β × World) :
    ∃ xs, (l.foldl f p).2.log = p.2.log ++ xs ∧ benign_entries xs := by
  induction l generalizing p with
  | nil => exact ⟨[], (List.append_nil _).symm, benign_entries_nil⟩
  | cons hd t ih =>
      obtain ⟨xs1, h1, hb1⟩ := hf p hd
      obtain ⟨xs2, h2, hb2⟩ := ih (f p hd)
      refine ⟨xs1 ++ xs2, ?_, benign_entries_append hb1 hb2⟩
      rw [List.foldl_cons, h2, h1, List.append_assoc]

theorem log_connect_to_control_source (doc : DocState) (lo : LayerObserverS)
    (w : World) (te : Nat) (b : Binding) :
    (layer_observer_connect_to_control_source doc lo w te b).2.log = w.log := rfl

theorem log_fold_connect_to_control_source (doc : DocState) (te : Nat)
    (bs : List Binding) (p : LayerObserverS × World) :
    (bs.foldl (fun p b =>
        layer_observer_connect_to_control_source doc p.1 p.2 te b) p).2.log
      = p.2.log := by
  induction bs generalizing p with
  | nil => rfl
  | cons hd t ih =>
      rw [List.foldl_cons]
      exact ih _

theorem log_connect_to_track_element (doc : DocState) (ignore : List String)
    (lo : LayerObserverS) (w : World) (te : Nat) :
    ∃ xs, (layer_observer_connect_to_track_element doc ignore lo w te).2.log
        = w.log ++ xs ∧ benign_entries xs := by
  unfold layer_observer_connect_to_track_element
  cases he : alLookup doc.elems te with
  | none => exact ⟨[], (List.append_nil _).symm, benign_entries_nil⟩
  | some ed =>
      by_cases hvt : ed.isVideoTransition = true
      · simp only [hvt, if_true]
        cases htp : get_toplevel_parent doc te with
        | none => exact ⟨[], (List.append_nil _).symm, benign_entries_nil⟩
        | some c =>
            dsimp only
            cases hcl : clip_layer doc c with
            | none =>
                cases hcd : alLookup doc.clips c with
                | none => exact ⟨[], (List.append_nil _).symm, benign_entries_nil⟩
                | some cd => exact ⟨[], (List.append_nil _).symm, benign_entries_nil⟩
            | some lay =>
                cases hcd : alLookup doc.clips c with
                | none => exact ⟨[], (List.append_nil _).symm, benign_entries_nil⟩
                | some cd =>
                    dsimp only
                    refine ⟨[.transitionClipAdded
                      { ges_layer := lay, start := cd.start,
                        duration := cd.duration, track_element := te }], rfl, ?_⟩
                    intro x hx
                    rw [List.mem_singleton] at hx
                    subst hx
                    exact ⟨rfl, rfl⟩
      · simp only [hvt, if_false, Bool.false_eq_true]
        refine ⟨[], ?_, benign_entries_nil⟩
        rw [List.append_nil]
        by_cases hbe : (ed.isBaseEffect || ed.isVideoSource) = true
        · simp only [hbe, if_true]
          exact log_fold_connect_to_control_source doc te ed.bindings (lo, w)
        · simp only [hbe, if_false, Bool.false_eq_true]
          exact log_fold_connect_to_control_source doc te ed.bindings (lo, w)

theorem log_connect_to_clip (doc : DocState) (ignore : List String)
    (lo : LayerObserverS) (w : World) (c : Nat) :
    ∃ xs, (layer_observer_connect_to_clip doc ignore lo w c).2.log
        = w.log ++ xs ∧ benign_entries xs := by
  unfold layer_observer_connect_to_clip
  obtain ⟨xs, hx, hb⟩ := log_foldl_benign
      (fun p te => layer_observer_connect_to_track_element doc ignore p.1 p.2 te)
      (fun p te => log_connect_to_track_element doc ignore p.1 p.2 te)
      (((alLookup doc.clips c).map (fun cd => cd.children)).getD [])
      (lo, connectSig (connectSig w (.clip c) "child-added") (.clip c) "child-removed")
  by_cases hit : (((alLookup doc.clips c).map (fun cd => cd.isTransition)).getD false) = true
  · refine ⟨xs, ?_, hb⟩
    simp only [hit, if_true]
    exact hx
  · refine ⟨xs, ?_, hb⟩
    simp only [hit, if_false, Bool.false_eq_true]
    exact hx

theorem log_layer_observer_init (doc : DocState) (ignore : List String)
    (w : World) (l : Nat) :
    ∃ xs, (layer_observer_init doc ignore w l).1.log = w.log ++ xs ∧
      benign_entries xs := by
  unfold layer_observer_init
  obtain ⟨xs, hx, hb⟩ := log_foldl_benign
      (fun p c => layer_observer_connect_to_clip doc ignore p.1 p.2 c)
      (fun p c => log_connect_to_clip doc ignore p.1 p.2 c)
      (get_clips doc l)
      (⟨l, (alLookup doc.layerPriority l).getD 0, [], [], []⟩,
       connectSig (connectSig (connectSig w (.layer l) "clip-added")
         (.layer l) "clip-removed") (.layer l) "notify::priority")
  exact ⟨xs, hx, hb⟩

theorem log_connect_to_layer (doc : DocState) (ignore : List String)
    (w : World) (tos : TimelineObserverS) (l : Nat) :
    ∃ xs, (timeline_observer_connect_to_layer doc ignore w tos l).1.log
        = w.log ++ Action.layerAdded l :: xs ∧ benign_entries xs := by
  unfold timeline_observer_connect_to_layer
  obtain ⟨xs, hx, hb⟩ :=
    log_layer_observer_init doc ignore (pushAction w (.layerAdded l)) l
  refine ⟨xs, ?_, hb⟩
  rw [hx]
  show (w.log ++ [Action.layerAdded l]) ++ xs = w.log ++ Action.layerAdded l :: xs
  rw [List.append_assoc, List.singleton_append]

theorem counts_fold_connect_layers (doc : DocState) (ignore : List String)
    (ls : List Nat) (p : World × TimelineObserverS) :
    ((ls.foldl (fun p l =>
        timeline_observer_connect_to_layer doc ignore p.1 p.2 l) p).1.log.countP
          isLayerAdded
      = p.1.log.countP isLayerAdded + ls.length) ∧
    ((ls.foldl (fun p l =>
        timeline_observer_connect_to_layer doc ignore p.1 p.2 l) p).1.log.countP
          isClipAdded
      = p.1.log.countP isClipAdded) := by
  induction ls generalizing p with
  | nil => simp
  | cons hd t ih =>
      obtain ⟨xs, hx, hb⟩ := log_connect_to_layer doc ignore p.1 p.2 hd
      obtain ⟨ih1, ih2⟩ := ih (timeline_observer_connect_to_layer doc ignore p.1 p.2 hd)
      constructor
      · rw [List.foldl_cons, ih1, hx, List.countP_append, List.countP_cons,
          countP_benign_layer hb]
        simp [isLayerAdded, List.length_cons]
        omega
      · rw [List.foldl_cons, ih2, hx, List.countP_append, List.countP_cons,
          countP_benign_clip hb]
        simp [isClipAdded]

/-- **C10**: constructing a `TimelineObserver` over a timeline that already
contains layers pushes exactly one `LayerAdded` per pre-existing layer (so
observing a non-empty document is not action-silent at the layer level) and
no `ClipAdded`; constructing a `LayerObserver` over a layer that already
contains clips pushes no `ClipAdded` for them (they are only subscribed
to). -/
theorem c10_observer_construction_pushes (doc : DocState) (ignore : List String)
    (w : World) (l : Nat) :
    ((timeline_observer_init doc ignore w).1.log.countP isLayerAdded
      = w.log.countP isLayerAdded + doc.timelineLayers.length) ∧
    ((timeline_observer_init doc ignore w).1.log.countP isClipAdded
      = w.log.countP isClipAdded) ∧
    ((layer_observer_init doc ignore w l).1.log.countP isClipAdded
      = w.log.countP isClipAdded) := by
  refine ⟨?_, ?_, ?_⟩
  · exact (counts_fold_connect_layers doc ignore doc.timelineLayers
      (w, ⟨[]⟩)).1
  · exact (counts_fold_connect_layers doc ignore doc.timelineLayers
      (w, ⟨[]⟩)).2
  · obtain ⟨xs, hx, hb⟩ := log_layer_observer_init doc ignore w l
    rw [hx, List.countP_append, countP_benign_clip hb]
    omega

end PitiviUndoTimeline
